import Mathlib

/-!
Verification development for the ProductCatalog synchronization engine.

The definitions below are a shallow embedding of the Python sources:
`data_loader.py`, `google_sheets_sync.py`, `data_service.py`, `models.py`.
Pandas dataframes are modelled as a list of column headers together with a
list of rows of optional string cells (`none` models a missing/NaN cell);
the SQLAlchemy `Product` table is modelled as a list of `Product` records
plus an id counter.  Python `float` values are modelled as rationals
(every numeral appearing in the claims is exactly representable).
-/

set_option maxHeartbeats 1000000

/-- A dataframe cell: `none` models pandas NaN / a missing value. -/
abbrev Cell := Option String

/-- Python `str()` applied to a cell: a NaN cell prints as "nan". -/
def pyStr (c : Cell) : String :=
  match c with
  | some s => s
  | none => "nan"

/-- Whitespace characters recognised by Python's `str.strip` / `\s`
(ASCII subset, which is all the repository's data uses). -/
def isSpaceChar (c : Char) : Bool :=
  c = ' ' || c = '\t' || c = '\n' || c = '\r' || c = '\x0b' || c = '\x0c'

/-- Strip leading and trailing whitespace from a character list
(Python `str.strip()`). -/
def stripChars (cs : List Char) : List Char :=
  ((cs.dropWhile isSpaceChar).reverse.dropWhile isSpaceChar).reverse

/-- Python `str.strip()`. -/
def pyStrip (s : String) : String :=
  String.mk (stripChars s.data)

/-- Python `str.lower()` on one character, for the ASCII and Cyrillic
ranges used by the repository's header aliases. -/
def pyLowerChar (c : Char) : Char :=
  if 'A' ≤ c && c ≤ 'Z' then Char.ofNat (c.toNat + 32)
  else if 0x410 ≤ c.toNat && c.toNat ≤ 0x42F then Char.ofNat (c.toNat + 0x20)
  else if c.toNat = 0x401 then Char.ofNat 0x451
  else c

/-- Python `str.upper()` on one character (ASCII and Cyrillic ranges). -/
def pyUpperChar (c : Char) : Char :=
  if 'a' ≤ c && c ≤ 'z' then Char.ofNat (c.toNat - 32)
  else if 0x430 ≤ c.toNat && c.toNat ≤ 0x44F then Char.ofNat (c.toNat - 0x20)
  else if c.toNat = 0x451 then Char.ofNat 0x401
  else c

/-- Python `str.lower()`. -/
def pyLower (s : String) : String :=
  String.mk (s.data.map pyLowerChar)

/-- Python `str.upper()`. -/
def pyUpper (s : String) : String :=
  String.mk (s.data.map pyUpperChar)

/-- Does `pat` occur as a contiguous run inside `hay`
(Python's `pat in hay` on strings)? -/
def containsSub (hay pat : List Char) : Bool :=
  match hay with
  | [] => pat.isEmpty
  | _ :: t => pat.isPrefixOf hay || containsSub t pat

/-- Python substring membership `pat in s`. -/
def strContains (s pat : String) : Bool :=
  containsSub s.data pat.data

/-- Numeric value of a string of decimal digits, as a natural number. -/
def parseDigitsN (cs : List Char) : ℕ :=
  cs.foldl (fun acc c => acc * 10 + (c.toNat - 48)) 0

/-- The rational `m / 10 ^ dpow * 10 ^ e` (mantissa, fraction length and
exponent of a decimal literal), built with one `mkRat` so that it
evaluates by kernel reduction. -/
def ratOfDec (m : ℕ) (dpow : ℕ) (e : ℤ) : ℚ :=
  if 0 ≤ e then mkRat (m * 10 ^ e.toNat) (10 ^ dpow)
  else mkRat m (10 ^ dpow * 10 ^ (-e).toNat)

/-- Exponent digits of a Python float literal (after the optional sign). -/
def pyExpNat (cs : List Char) : Option ℤ :=
  if !cs.isEmpty && cs.all Char.isDigit then some ((parseDigitsN cs : ℤ)) else none

/-- Signed exponent digits of a Python float literal. -/
def pyExpSigned (cs : List Char) : Option ℤ :=
  match cs with
  | '+' :: t => pyExpNat t
  | '-' :: t => (pyExpNat t).map (fun n => -n)
  | t => pyExpNat t

/-- Optional exponent part of a Python float literal; `[]` means no
exponent (value `10 ^ 0`). -/
def pyExpPart (cs : List Char) : Option ℤ :=
  match cs with
  | [] => some 0
  | 'e' :: t => pyExpSigned t
  | 'E' :: t => pyExpSigned t
  | _ => none

/-- Unsigned mantissa (with optional fraction and exponent) of a Python
float literal: `digits [. digits] [exp]`, `. digits [exp]` or
`digits . [exp]`.  Models `float(str)` on the repository's data; the rarely
used `inf`/`nan`/underscore literal forms are outside the model. -/
def pyFloatMag (cs : List Char) : Option ℚ :=
  let ip := cs.takeWhile Char.isDigit
  let rest := cs.dropWhile Char.isDigit
  match rest with
  | '.' :: t =>
    let fp := t.takeWhile Char.isDigit
    let rest2 := t.dropWhile Char.isDigit
    if ip.isEmpty && fp.isEmpty then none
    else (pyExpPart rest2).map
      (fun e => ratOfDec (parseDigitsN ip * 10 ^ fp.length + parseDigitsN fp) fp.length e)
  | _ =>
    if ip.isEmpty then none
    else (pyExpPart rest).map (fun e => ratOfDec (parseDigitsN ip) 0 e)

/-- Signed Python float literal body (input already stripped). -/
def pyFloatCore (cs : List Char) : Option ℚ :=
  match cs with
  | '+' :: t => pyFloatMag t
  | '-' :: t => (pyFloatMag t).map (fun q => -q)
  | t => pyFloatMag t

/-- Python `float(s)`: strips surrounding whitespace, then parses a signed
decimal literal; `none` models the `ValueError` branch. -/
def pyFloat (s : String) : Option ℚ :=
  pyFloatCore (stripChars s.data)

/-- Python `int(s)`: strips whitespace, then optional sign and a nonempty
run of digits; `none` models the `ValueError` branch. -/
def pyIntStr (s : String) : Option ℤ :=
  match stripChars s.data with
  | '+' :: t => pyExpNat t
  | '-' :: t => (pyExpNat t).map (fun n => -n)
  | t => pyExpNat t

/-- Python `int(float)` conversion: truncation toward zero. -/
def pyTrunc (q : ℚ) : ℤ :=
  if 0 ≤ q then ⌊q⌋ else -⌊-q⌋

/-- `str(x).replace(' ', '').replace(',', '.')` — the cleansing shared by
both parsers. -/
def cleanQtyChars (s : String) : List Char :=
  (s.data.filter (fun ch => ch ≠ ' ')).map (fun ch => if ch = ',' then '.' else ch)

/-- The price cleansing: spaces removed, commas to periods, then
`re.sub(r'[^\d\.]', '')` (only digits and periods survive). -/
def cleanPriceChars (s : String) : List Char :=
  (cleanQtyChars s).filter (fun ch => ch.isDigit || ch = '.')

/-- `DataLoader.parse_price` / the local `parse_price` in
`GoogleSheetsSync.sync_data`: NaN ↦ 0.0; otherwise remove spaces, turn
commas into periods, strip every char that is not a digit or a period,
and parse as float; any failure ↦ 0.0. -/
def parse_price (c : Cell) : ℚ :=
  match c with
  | none => 0
  | some s =>
    match pyFloatCore (stripChars (cleanPriceChars s)) with
    | some q => q
    | none => 0

/-- `DataLoader.parse_quantity` / the local `parse_quantity` in
`GoogleSheetsSync.sync_data`: NaN ↦ 0; otherwise remove spaces, turn
commas into periods (note: NO removal of other junk characters), parse as
float, truncate to int and clamp at 0; any failure ↦ 0. -/
def parse_quantity (c : Cell) : ℤ :=
  match c with
  | none => 0
  | some s =>
    match pyFloatCore (stripChars (cleanQtyChars s)) with
    | some q => max 0 (pyTrunc q)
    | none => 0

/-- Modelled from the spec: the parseQuantity the specification describes,
which applies "the same cleansing as `parsePrice`" — including the removal
of every character that is not a digit or a period — before parsing.
Used only to compare the spec's wording with the source's
`parse_quantity`. -/
def parse_quantity_of_spec (c : Cell) : ℤ :=
  match c with
  | none => 0
  | some s =>
    match pyFloatCore (stripChars (cleanPriceChars s)) with
    | some q => max 0 (pyTrunc q)
    | none => 0

/-- Alternatives of the first power pattern
`(T2|M6|M30|B20|B30|C30|C11|Q3)[^\d]*(\d+)` in `extract_info`. -/
def modelLineAlts : List String := ["T2", "M6", "M30", "B20", "B30", "C30", "C11", "Q3"]

/-- First alternative of `modelLineAlts` that literally matches at the head
of `cs` (regex alternation order; no alternative is a prefix of another). -/
def firstAltAt (cs : List Char) : Option (List Char) :=
  (modelLineAlts.find? (fun a => a.data.isPrefixOf cs)).map String.data

/-- `re.search` of `(T2|M6|M30|B20|B30|C30|C11|Q3)[^\d]*(\d+)`, returning
capture group 2: at the leftmost position where an alternative matches and
some digit follows, the first maximal digit run after the alternative. -/
def searchModelLine : List Char → Option (List Char)
  | [] => none
  | c :: rest =>
    match firstAltAt (c :: rest) with
    | some a =>
      let after := (c :: rest).drop a.length
      let ds := (after.dropWhile (fun x => !x.isDigit)).takeWhile Char.isDigit
      if ds.isEmpty then searchModelLine rest else some ds
    | none => searchModelLine rest

/-- Alternatives of the unit suffix in `(\d+)\s*(C|H|С|Х|кВт|KW)`. -/
def unitAlts : List String := ["C", "H", "С", "Х", "кВт", "KW"]

/-- `re.search` of `(\d+)\s*(C|H|С|Х|кВт|KW)`, returning capture group 1. -/
def searchDigitsUnit : List Char → Option (List Char)
  | [] => none
  | c :: rest =>
    if c.isDigit then
      let run := (c :: rest).takeWhile Char.isDigit
      let after := ((c :: rest).dropWhile Char.isDigit).dropWhile isSpaceChar
      if unitAlts.any (fun a => a.data.isPrefixOf after) then some run
      else searchDigitsUnit rest
    else searchDigitsUnit rest

/-- `re.search` of `ГАЗ\s*6000\s*(\d+)`, returning capture group 1. -/
def searchGaz6000 : List Char → Option (List Char)
  | [] => none
  | c :: rest =>
    let here :=
      if ("ГАЗ".data).isPrefixOf (c :: rest) then
        let t1 := ((c :: rest).drop 3).dropWhile isSpaceChar
        if ("6000".data).isPrefixOf t1 then
          let t2 := (t1.drop 4).dropWhile isSpaceChar
          let ds := t2.takeWhile Char.isDigit
          if ds.isEmpty then none else some ds
        else none
      else none
    match here with
    | some ds => some ds
    | none => searchGaz6000 rest

/-- `re.search` of a literal followed by optional whitespace and `(\d+)`
(the `MK\s*(\d+)`, `LL1GBQ(\d+)`, `LN1GBQ(\d+)` patterns), returning the
digit capture group. -/
def searchLitDigits (lit : String) (allowWs : Bool) : List Char → Option (List Char)
  | [] => none
  | c :: rest =>
    let here :=
      if lit.data.isPrefixOf (c :: rest) then
        let t1 := (c :: rest).drop lit.data.length
        let t2 := if allowWs then t1.dropWhile isSpaceChar else t1
        let ds := t2.takeWhile Char.isDigit
        if ds.isEmpty then none else some ds
      else none
    match here with
    | some ds => some ds
    | none => searchLitDigits lit allowWs rest

/-- The ordered cascade of power patterns from `extract_info`:
the first matching pattern's captured digits. -/
def power_patterns (u : List Char) : Option (List Char) :=
  match searchModelLine u with
  | some ds => some ds
  | none =>
  match searchDigitsUnit u with
  | some ds => some ds
  | none =>
  match searchGaz6000 u with
  | some ds => some ds
  | none =>
  match searchLitDigits "MK" true u with
  | some ds => some ds
  | none =>
  match searchLitDigits "LL1GBQ" false u with
  | some ds => some ds
  | none => searchLitDigits "LN1GBQ" false u

/-- Python `\w` word characters over the repository's alphabet
(ASCII alphanumerics, underscore, Cyrillic letters). -/
def isWordChar (c : Char) : Bool :=
  c.isAlphanum || c = '_' || (0x400 ≤ c.toNat && c.toNat ≤ 0x4FF)

/-- First match of `re.findall(r'\b(\d{2,3})\b', s)`: the first maximal
digit run of length 2 or 3 delimited by word boundaries. `prev` is the
character before the current position (`none` at the start). -/
def findBareNumber : Option Char → List Char → Option (List Char)
  | _, [] => none
  | prev, c :: rest =>
    if c.isDigit && (match prev with | none => true | some p => !isWordChar p) then
      let run := (c :: rest).takeWhile Char.isDigit
      let after := (c :: rest).dropWhile Char.isDigit
      if (run.length = 2 || run.length = 3)
          && (after.isEmpty || !isWordChar (after.headD ' ')) then some run
      else findBareNumber (some c) rest
    else findBareNumber (some c) rest

/-- The sentinel returned when no power could be extracted. -/
def powerUnknown : String := "Не указана"

/-- The power part of `extract_info`: the pattern cascade, then the bare
2–3 digit fallback, then the sentinel. Input is the upper-cased name. -/
def extract_power (u : List Char) : String :=
  match power_patterns u with
  | some ds => String.mk ds
  | none =>
    match findBareNumber none u with
    | some ds => String.mk ds
    | none => powerUnknown

/-- Double-circuit marker substrings from `extract_info`. -/
def contoursDoubleMarkers : List String := [" C", "С ", "C)", "-C", " C ", " С "]

/-- Single-circuit marker substrings from `extract_info`. -/
def contoursSingleMarkers : List String := [" H", "Н ", "H)", "-H", " H ", " Н "]

/-- Wi-Fi marker substrings from `extract_info`. -/
def wifiMarkers : List String := ["WI-FI", "WIFI", "ВАЙ-ФАЙ", "WI FI"]

/-- The contours part of `extract_info`, on the upper-cased name: any
double marker ⇒ double; else any single marker ⇒ single; else double
exactly when the wall-mount word НАСТЕННЫЙ occurs, single otherwise. -/
def extract_contours (uStr : String) : String :=
  if contoursDoubleMarkers.any (fun m => strContains uStr m) then "Двухконтурный"
  else if contoursSingleMarkers.any (fun m => strContains uStr m) then "Одноконтурный"
  else if strContains uStr "НАСТЕННЫЙ" then "Двухконтурный"
  else "Одноконтурный"

/-- `DataLoader.extract_info` / the local `extract_info` in
`GoogleSheetsSync._add_product_fields`: power, contours and Wi-Fi flag
derived from the upper-cased model name. -/
def extract_info (model : Cell) : String × String × String :=
  let uStr := pyUpper (pyStr model)
  let power := extract_power uStr.data
  let contours := extract_contours uStr
  let wifi := if wifiMarkers.any (fun m => strContains uStr m) then "Да" else "Нет"
  (power, contours, wifi)

/-- `get_product_category` (identical in both pipeline files). -/
def get_product_category (model : Cell) : String :=
  let m := pyLower (pyStr model)
  if strContains m "meteor" then "meteor"
  else if strContains m "laggartt" || strContains m "газ" then "laggartt"
  else if strContains m "devotion" then "devotion"
  else if strContains m "mk" then "mk"
  else "other"

/-- `get_power_level` (identical in both pipeline files). -/
def get_power_level (power : String) : String :=
  match pyIntStr power with
  | some v => if v ≤ 20 then "low" else if v ≤ 30 then "medium" else "high"
  | none => "unknown"

/-- `DataLoader.get_image_for_model`. -/
def DataLoader.get_image_for_model (model : Cell) : String :=
  let m := pyUpper (pyStr model)
  if strContains m "METEOR T2" then "images/meteor-t2.jpg"
  else if strContains m "METEOR C30" then "images/meteor-c30.jpg"
  else if strContains m "METEOR B30" then "images/meteor-b30.jpg"
  else if strContains m "METEOR B20" then "images/meteor-b20.jpg"
  else if strContains m "METEOR C11" then "images/meteor-c11.jpg"
  else if strContains m "METEOR Q3" then "images/meteor-q3.jpg"
  else if strContains m "METEOR M30" then "images/meteor-m30.jpg"
  else if strContains m "METEOR M6" then "images/meteor-m6.jpg"
  else if strContains m "LAGGARTT" || strContains m "ГАЗ 6000" then "images/laggartt.jpg"
  else if strContains m "DEVOTION" then "images/devotion.jpg"
  else if strContains m "MK" then "images/mk.jpg"
  else "images/default.jpg"

/-- The `get_image_for_model` local to `GoogleSheetsSync._add_product_fields`. -/
def GoogleSheetsSync.get_image_for_model (model : Cell) : String :=
  let m := pyUpper (pyStr model)
  if strContains m "METEOR T2" then "/static/meteor-t2.jpg"
  else if strContains m "METEOR C30" then "/static/meteor-c30.jpg"
  else if strContains m "METEOR B30" then "/static/meteor-b30.jpg"
  else if strContains m "METEOR B20" then "/static/meteor-b20.jpg"
  else if strContains m "METEOR C11" then "/static/meteor-c11.jpg"
  else if strContains m "METEOR Q3" then "/static/meteor-q3.jpg"
  else if strContains m "METEOR M30" then "/static/meteor-m30.jpg"
  else if strContains m "METEOR M6" then "/static/meteor-m6.jpg"
  else if strContains m "LAGGARTT" || strContains m "ГАЗ 6000" then "/static/laggartt.jpg"
  else if strContains m "DEVOTION" then "/static/devotion.jpg"
  else if strContains m "MK" then "/static/mk.jpg"
  else "/static/meteor-b30.jpg"

/-- A fetched tabular dataset: column headers plus rows of cells
(modelling a pandas dataframe read from CSV). -/
structure Df where
  columns : List String
  rows : List (List Cell)
deriving DecidableEq

/-- `find_column`: the first header whose lower-cased text contains any of
the lower-cased aliases (identical logic in `DataLoader.find_column` and
the local `find_column` in `GoogleSheetsSync.sync_data`). -/
def find_column (cols : List String) (possibleNames : List String) : Option String :=
  cols.find? (fun col => possibleNames.any (fun name => strContains (pyLower col) (pyLower name)))

/-- The cell of row `r` under header `c`. -/
def getCellNamed (cols : List String) (r : List Cell) (c : String) : Cell :=
  match (cols.zip r).find? (fun x => x.1 == c) with
  | some x => x.2
  | none => none

/-- A cleaned pricing row: article dropna'd and stripped, price parsed. -/
structure PriceRow where
  article : String
  model : Cell
  price : ℚ
deriving DecidableEq

/-- A cleaned stock row: article dropna'd and stripped, quantity parsed. -/
structure StockRow where
  article : String
  quantity : ℤ
deriving DecidableEq

/-- `price_clean`: select the three resolved columns, drop rows whose
article cell is NaN, strip the article, parse the price. -/
def clean_price_rows (pdf : Df) (aCol nCol pCol : String) : List PriceRow :=
  pdf.rows.filterMap (fun r =>
    match getCellNamed pdf.columns r aCol with
    | none => none
    | some s => some { article := pyStrip s, model := getCellNamed pdf.columns r nCol,
                       price := parse_price (getCellNamed pdf.columns r pCol) })

/-- `stock_clean`: select the two resolved columns, drop rows whose
article cell is NaN, strip the article, parse the quantity. -/
def clean_stock_rows (sdf : Df) (aCol qCol : String) : List StockRow :=
  sdf.rows.filterMap (fun r =>
    match getCellNamed sdf.columns r aCol with
    | none => none
    | some s => some { article := pyStrip s,
                       quantity := parse_quantity (getCellNamed sdf.columns r qCol) })

/-- `pd.merge(price_clean, stock_clean, on='Артикул', how='left')` followed
by `fillna(0)` on the quantity: every pricing row is kept, paired with each
matching stock row's quantity, or with 0 when no stock row matches. -/
def merge_rows (price : List PriceRow) (stock : List StockRow) : List (PriceRow × ℤ) :=
  price.flatMap (fun p =>
    let ms := stock.filter (fun s => s.article == p.article)
    if ms.isEmpty then [(p, 0)] else ms.map (fun s => (p, s.quantity)))

/-- One fully derived record of the merged dataframe (the dict produced by
`to_dict('records')`). -/
structure Item where
  article : String
  model : Cell
  price : ℚ
  quantity : ℤ
  power : String
  contours : String
  wifi : String
  image : String
  status : String
  category : String
  power_level : String
deriving DecidableEq

/-- Derive the additional fields of one merged row
(`_add_product_fields` / the tail of `DataLoader.process_data`). -/
def build_item (imageOf : Cell → String) (pq : PriceRow × ℤ) : Item :=
  let info := extract_info pq.1.model
  { article := pq.1.article, model := pq.1.model, price := pq.1.price,
    quantity := pq.2,
    power := info.1, contours := info.2.1, wifi := info.2.2,
    image := imageOf pq.1.model,
    status := if 0 < pq.2 then "В наличии" else "Нет в наличии",
    category := get_product_category pq.1.model,
    power_level := get_power_level info.1 }

/-- Header aliases used by `GoogleSheetsSync.sync_data`. -/
def GoogleSheetsSync.articleAliases : List String := ["артикул", "article", "код", "articul", "sku"]

/-- Header aliases for the model-name column in `GoogleSheetsSync.sync_data`. -/
def GoogleSheetsSync.nameAliases : List String := ["товар", "наименование", "модель", "name", "product", "название"]

/-- Header aliases for the price column in `GoogleSheetsSync.sync_data`. -/
def GoogleSheetsSync.priceAliases : List String := ["розничная", "цена", "price", "retail", "стоимость", "руб"]

/-- Header aliases for the stock column in `GoogleSheetsSync.sync_data`. -/
def GoogleSheetsSync.stockAliases : List String := ["в наличии", "остаток", "количество", "quantity", "stock", "наличие", "кол-во"]

/-- Header aliases used by `DataLoader.process_data`. -/
def DataLoader.articleAliases : List String := ["артикул", "article"]

/-- Header aliases for the model-name column in `DataLoader.process_data`. -/
def DataLoader.nameAliases : List String := ["модель", "наименование"]

/-- Header aliases for the price column in `DataLoader.process_data`. -/
def DataLoader.priceAliases : List String := ["цена", "price"]

/-- Header aliases for the stock column in `DataLoader.process_data`. -/
def DataLoader.stockAliases : List String := ["в наличии", "остаток"]

/-- `GoogleSheetsSync.sync_data` after the two CSV fetches: resolve the
five columns (raising `ValueError` if any is unresolved), clean, merge and
derive; `Except.error` models the raised exception. -/
def GoogleSheetsSync.sync_data (pdf sdf : Df) : Except String (List Item) :=
  match find_column pdf.columns GoogleSheetsSync.articleAliases,
        find_column pdf.columns GoogleSheetsSync.nameAliases,
        find_column pdf.columns GoogleSheetsSync.priceAliases,
        find_column sdf.columns GoogleSheetsSync.articleAliases,
        find_column sdf.columns GoogleSheetsSync.stockAliases with
  | some aP, some nP, some pP, some aS, some qS =>
    .ok ((merge_rows (clean_price_rows pdf aP nP pP) (clean_stock_rows sdf aS qS)).map
      (build_item GoogleSheetsSync.get_image_for_model))
  | _, _, _, _, _ => .error "Не найдены все необходимые колонки в таблицах"

/-- `DataLoader.process_data`: same pipeline with the shorter alias lists,
the `images/` photo paths and its own error message. -/
def DataLoader.process_data (pdf sdf : Df) : Except String (List Item) :=
  match find_column pdf.columns DataLoader.articleAliases,
        find_column pdf.columns DataLoader.nameAliases,
        find_column pdf.columns DataLoader.priceAliases,
        find_column sdf.columns DataLoader.articleAliases,
        find_column sdf.columns DataLoader.stockAliases with
  | some aP, some nP, some pP, some aS, some qS =>
    .ok ((merge_rows (clean_price_rows pdf aP nP pP) (clean_stock_rows sdf aS qS)).map
      (build_item DataLoader.get_image_for_model))
  | _, _, _, _, _ => .error "Не найдены все необходимые колонки"

/-- A row of the `product` table (`models.py`); store-owned fields are the
`id` and `views_count` (timestamps and the JSON `specifications` blob are
outside the model). -/
structure Product where
  id : Nat
  article : String
  name : Cell
  description : String
  price : ℚ
  category : String
  image_url : String
  in_stock : Bool
  stock_quantity : ℤ
  power : String
  contours : String
  wifi : String
  status : String
  power_level : String
  views_count : Nat
deriving DecidableEq

/-- The persistent store: the `product` table plus the id sequence. -/
structure Store where
  products : List Product
  nextId : Nat
deriving DecidableEq

/-- `Product.query.filter_by(article=a).first()`. -/
def findByArticle (ps : List Product) (a : String) : Option Product :=
  ps.find? (fun p => p.article == a)

/-- The update branch of the upsert loops in `DataService.load_from_json`
and `DataService.sync_from_sheets`: overwrite every record-derived field
in place; `id`, `views_count` and `description` are not touched. -/
def updateFromItem (p : Product) (it : Item) : Product :=
  { p with
    name := it.model, price := it.price, stock_quantity := it.quantity,
    in_stock := decide (0 < it.quantity), power := it.power, contours := it.contours,
    wifi := it.wifi, status := it.status, power_level := it.power_level,
    category := it.category, image_url := it.image }

/-- The create branch of the upsert loops in `data_service.py`: a new
product seeded from the item, with the store's next id and zero views. -/
def DataService.newProduct (id : Nat) (it : Item) : Product :=
  { id := id, article := it.article, name := it.model,
    description := "Котел " ++ it.power ++ " кВт, " ++ it.contours,
    price := it.price, category := it.category, image_url := it.image,
    in_stock := decide (0 < it.quantity), stock_quantity := it.quantity,
    power := it.power, contours := it.contours, wifi := it.wifi,
    status := it.status, power_level := it.power_level, views_count := 0 }

/-- Replace the first product with the item's article by its update. -/
def updateFirst : List Product → Item → List Product
  | [], _ => []
  | p :: rest, it =>
    if p.article == it.article then updateFromItem p it :: rest
    else p :: updateFirst rest it

/-- One iteration of the upsert loop in `data_service.py`. -/
def upsertOne (st : Store) (it : Item) : Store :=
  if (findByArticle st.products it.article).isSome then
    { st with products := updateFirst st.products it }
  else
    { products := st.products ++ [DataService.newProduct st.nextId it],
      nextId := st.nextId + 1 }

/-- The full upsert loop of `data_service.py` over one item list. -/
def upsertItems (st : Store) (items : List Item) : Store :=
  items.foldl upsertOne st

/-- `DataService.load_from_json`: `jsonData = none` models a missing
`temp_kotly_repo/data.json`; otherwise the same upsert loop runs over the
file's items.  Returns the message the method returns, with the store. -/
def DataService.load_from_json (st : Store) (jsonData : Option (List Item)) : String × Store :=
  match jsonData with
  | none => ("JSON file not found", st)
  | some items =>
    ("Successfully loaded " ++ toString items.length ++ " products", upsertItems st items)

/-- The `sheets_sync.sync_data()` call inside
`DataService.sync_from_sheets`: `fetch = none` models a failed remote
fetch (`pd.read_csv` raising); otherwise the pipeline runs. -/
def syncDataRun (fetch : Option (Df × Df)) : Except String (List Item) :=
  match fetch with
  | none => Except.error "FetchError"
  | some (pdf, sdf) => GoogleSheetsSync.sync_data pdf sdf

/-- `DataService.sync_from_sheets`: on success, upsert every item (an
empty list is falsy and short-circuits); on ANY exception, fall back to
`load_from_json`. -/
def DataService.sync_from_sheets (st : Store) (fetch : Option (Df × Df))
    (jsonData : Option (List Item)) : String × Store :=
  match syncDataRun fetch with
  | Except.ok items =>
    if items.isEmpty then ("No data received from Google Sheets", st)
    else ("Successfully synced " ++ toString items.length ++ " products from Google Sheets",
          upsertItems st items)
  | Except.error _ => DataService.load_from_json st jsonData

/-- The create path of `DataLoader.save_to_database` (every product is
freshly constructed; `views_count` takes the column default 0). -/
def DataLoader.newProduct (id : Nat) (it : Item) : Product :=
  { id := id, article := it.article, name := it.model,
    description := "Газовый котел " ++ pyStr it.model,
    price := it.price, category := it.category, image_url := it.image,
    in_stock := decide (0 < it.quantity), stock_quantity := it.quantity,
    power := it.power, contours := it.contours, wifi := it.wifi,
    status := it.status, power_level := it.power_level, views_count := 0 }

/-- Insert all items as fresh products with consecutive ids. -/
def DataLoader.insertFresh : Nat → List Item → List Product
  | _, [] => []
  | n, it :: rest => DataLoader.newProduct n it :: DataLoader.insertFresh (n + 1) rest

/-- `DataLoader.save_to_database`: `Product.query.delete()` wipes the
whole table, then every item is inserted as a fresh row. -/
def DataLoader.save_to_database (st : Store) (items : List Item) : Store :=
  { products := DataLoader.insertFresh st.nextId items,
    nextId := st.nextId + items.length }

/-- `DataLoader.load_from_sheets`: fetch, process, save; any exception is
caught and reported as a failed result without further writes. -/
def DataLoader.load_from_sheets (st : Store) (fetch : Option (Df × Df)) : Store × Bool :=
  match fetch with
  | none => (st, false)
  | some (pdf, sdf) =>
    match DataLoader.process_data pdf sdf with
    | Except.error _ => (st, false)
    | Except.ok items => (DataLoader.save_to_database st items, true)

deriving instance DecidableEq for Except

/-- Pricing sheet of the end-to-end scenario of §8 of the spec. -/
def c10price : Df :=
  { columns := ["Артикул", "Модель", "Цена"],
    rows := [[some " A100 ", some "METEOR B30 WIFI H 24", some "45 000"]] }

/-- Stock sheet of the end-to-end scenario of §8 of the spec. -/
def c10stock : Df :=
  { columns := ["Артикул", "Остаток"],
    rows := [[some "A100", some "3"]] }

/-- The canonical record the pipeline produces in the end-to-end scenario. -/
def c10record : Item :=
  { article := "A100", model := some "METEOR B30 WIFI H 24", price := 45000,
    quantity := 3, power := "24", contours := "Одноконтурный", wifi := "Да",
    image := "/static/meteor-b30.jpg", status := "В наличии",
    category := "meteor", power_level := "medium" }

/-- A persisted product with id 7 and 42 accumulated views (the upsert
identity scenario of §8 of the spec). -/
def demoProd : Product :=
  { id := 7, article := "A1", name := some "OLD NAME", description := "d",
    price := 10, category := "other", image_url := "i", in_stock := false,
    stock_quantity := 0, power := "10", contours := "Одноконтурный",
    wifi := "Нет", status := "Нет в наличии", power_level := "low",
    views_count := 42 }

/-- A store holding just `demoProd`. -/
def demoStore : Store := { products := [demoProd], nextId := 8 }

/-- A fresh sync record for the same article with a new price. -/
def demoItem : Item :=
  { article := "A1", model := some "NEW NAME", price := 20, quantity := 5,
    power := "24", contours := "Двухконтурный", wifi := "Да",
    image := "/static/mk.jpg", status := "В наличии", category := "mk",
    power_level := "medium" }

/-- A persisted product whose article "X" is absent from later syncs. -/
def cexProdX : Product :=
  { id := 1, article := "X", name := some "OLD", description := "d", price := 5,
    category := "other", image_url := "i", in_stock := true, stock_quantity := 1,
    power := "10", contours := "Одноконтурный", wifi := "Нет",
    status := "В наличии", power_level := "low", views_count := 9 }

/-- A store holding just `cexProdX`. -/
def cexStore : Store := { products := [cexProdX], nextId := 2 }

/-- A fetched pricing sheet that no longer mentions article "X". -/
def c2price : Df :=
  { columns := ["Артикул", "Модель", "Цена"],
    rows := [[some "A1", some "M1", some "10"]] }

/-- A fetched stock sheet that no longer mentions article "X". -/
def c2stock : Df :=
  { columns := ["Артикул", "Остаток"],
    rows := [[some "A1", some "2"]] }

/-- A pricing sheet with no header aliasable to the price role. -/
def c7price : Df :=
  { columns := ["Артикул", "Модель"], rows := [[some "A1", some "M1"]] }

/-- A well-formed stock sheet to pair with `c7price`. -/
def c7stock : Df :=
  { columns := ["Артикул", "Остаток"], rows := [[some "A1", some "2"]] }

/-- One record of the local fallback JSON file. -/
def c7item : Item :=
  { article := "J1", model := some "MJ", price := 7, quantity := 1, power := "10",
    contours := "Одноконтурный", wifi := "Нет", image := "/static/mk.jpg",
    status := "В наличии", category := "mk", power_level := "low" }

/-- An initially empty store. -/
def emptyStore : Store := { products := [], nextId := 1 }

/-- A pricing sheet with one whitespace-only article and a duplicated
article "A". -/
def c4price : Df :=
  { columns := ["Артикул", "Модель", "Цена"],
    rows := [[some "  ", some "M", some "1"],
             [some "A", some "M1", some "1"],
             [some "A", some "M2", some "2"]] }

/-- An empty stock sheet to pair with `c4price`. -/
def c4stock : Df :=
  { columns := ["Артикул", "Остаток"], rows := [] }

/-- A pricing sheet with one article cell " B1 " (padded). -/
def c4wprice : Df :=
  { columns := ["Артикул", "Модель", "Цена"],
    rows := [[some " B1 ", some "M", some "1"]] }

/-- An empty stock sheet to pair with `c4wprice`. -/
def c4wstock : Df :=
  { columns := ["Артикул", "Остаток"], rows := [] }

/-- The single record produced from `c4wprice` and `c4wstock`. -/
def c4witem : Item :=
  { article := "B1", model := some "M", price := 1, quantity := 0,
    power := "Не указана", contours := "Одноконтурный", wifi := "Нет",
    image := "/static/meteor-b30.jpg", status := "Нет в наличии",
    category := "other", power_level := "unknown" }

/-! ### Helper lemmas -/

theorem dropWhile_eq_self_of_head {α : Type} (p : α → Bool) (l : List α)
    (h : ∀ x, l.head? = some x → p x = false) : l.dropWhile p = l := by
  cases l with
  | nil => rfl
  | cons a t =>
    apply List.dropWhile_cons_of_neg
    simp [h a rfl]

theorem head?_dropWhile_false {α : Type} (p : α → Bool) (l : List α) (x : α)
    (hx : (l.dropWhile p).head? = some x) : p x = false := by
  have h := List.head?_dropWhile_not p l
  rw [hx] at h
  exact h

theorem stripChars_idem (cs : List Char) : stripChars (stripChars cs) = stripChars cs := by
  have h1 : (stripChars cs).dropWhile isSpaceChar = stripChars cs := by
    apply dropWhile_eq_self_of_head
    intro x hx
    unfold stripChars at hx
    rw [List.head?_reverse] at hx
    obtain ⟨t, ht⟩ := List.dropWhile_suffix (l := (cs.dropWhile isSpaceChar).reverse) isSpaceChar
    have hg : ((cs.dropWhile isSpaceChar).reverse).getLast? = some x := by
      rw [← ht, List.getLast?_append, hx]
      rfl
    rw [List.getLast?_reverse] at hg
    exact head?_dropWhile_false _ _ _ hg
  have h2 : ((stripChars cs).reverse).dropWhile isSpaceChar = (stripChars cs).reverse := by
    apply dropWhile_eq_self_of_head
    intro x hx
    rw [show (stripChars cs).reverse = (cs.dropWhile isSpaceChar).reverse.dropWhile isSpaceChar from by
      unfold stripChars; rw [List.reverse_reverse]] at hx
    exact head?_dropWhile_false _ _ _ hx
  show (((stripChars cs).dropWhile isSpaceChar).reverse.dropWhile isSpaceChar).reverse = stripChars cs
  rw [h1, h2, List.reverse_reverse]

theorem pyStrip_idem (s : String) : pyStrip (pyStrip s) = pyStrip s := by
  unfold pyStrip
  rw [show (String.mk (stripChars s.data)).data = stripChars s.data from rfl, stripChars_idem]

theorem mem_stripChars (x : Char) (l : List Char) (h : x ∈ stripChars l) : x ∈ l := by
  unfold stripChars at h
  rw [List.mem_reverse] at h
  have h2 := List.dropWhile_subset (l := (l.dropWhile isSpaceChar).reverse) isSpaceChar h
  rw [List.mem_reverse] at h2
  exact List.dropWhile_subset isSpaceChar h2

theorem ratOfDec_nonneg (m dpow : ℕ) (e : ℤ) : 0 ≤ ratOfDec m dpow e := by
  unfold ratOfDec
  split
  · rw [Rat.mkRat_eq_divInt]
    exact Rat.divInt_nonneg (by positivity) (by positivity)
  · rw [Rat.mkRat_eq_divInt]
    exact Rat.divInt_nonneg (by positivity) (by positivity)

theorem pyFloatMag_nonneg (cs : List Char) (q : ℚ) (h : pyFloatMag cs = some q) : 0 ≤ q := by
  simp only [pyFloatMag] at h
  split at h
  · split at h
    · exact absurd h (by simp)
    · rw [Option.map_eq_some'] at h
      obtain ⟨e, _, he⟩ := h
      rw [← he]
      exact ratOfDec_nonneg _ _ _
  · split at h
    · exact absurd h (by simp)
    · rw [Option.map_eq_some'] at h
      obtain ⟨e, _, he⟩ := h
      rw [← he]
      exact ratOfDec_nonneg _ _ _

/-! ### Claims C5 and C6: the field normalizers -/

/-- Claim C5: `parse_price` is total and never raises: a missing or empty
cell yields 0.0, `"1 234,50 ₽"` parses to 1234.50, and (because every
sign character is removed by the cleansing) the result is never
negative. -/
theorem parse_price_total_spec :
    parse_price (some "1 234,50 ₽") = mkRat 12345 10 ∧
    parse_price (some "") = 0 ∧
    parse_price none = 0 ∧
    ∀ cell, 0 ≤ parse_price cell := by
  refine ⟨by decide, by decide, by decide, ?_⟩
  intro cell
  unfold parse_price
  split
  · exact le_refl 0
  next s =>
    cases hf : pyFloatCore (stripChars (cleanPriceChars s)) with
    | none => simp [hf]
    | some q =>
      simp only [hf]
      unfold pyFloatCore at hf
      split at hf
      · exact pyFloatMag_nonneg _ _ hf
      next t heq =>
        exfalso
        have hm : '-' ∈ stripChars (cleanPriceChars s) := by
          rw [heq]; exact List.mem_cons_self _ _
        have hm2 := mem_stripChars _ _ hm
        unfold cleanPriceChars at hm2
        rw [List.mem_filter] at hm2
        exact absurd hm2.2 (by decide)
      · exact pyFloatMag_nonneg _ _ hf

/-- Claim C6 (amended): `parse_quantity` strips spaces and converts commas
to periods but does NOT remove other junk characters (so `"5x"` fails to
parse and yields 0 rather than 5); it parses as float, truncates and
clamps at 0; empty or unparsable cells yield 0 and the result is a
non-negative integer for every input. -/
theorem parse_quantity_amended_spec :
    parse_quantity (some "abc") = 0 ∧
    parse_quantity (some "5x") = 0 ∧
    parse_quantity none = 0 ∧
    ∀ cell, 0 ≤ parse_quantity cell := by
  refine ⟨by decide, by decide, by decide, ?_⟩
  intro cell
  unfold parse_quantity
  split
  · exact le_refl 0
  next s =>
    cases hf : pyFloatCore (stripChars (cleanQtyChars s)) with
    | none => simp [hf]
    | some q =>
      simp only [hf]
      exact le_max_left 0 _

/-- Claim C6, counterexample: on `"5x"` the source's `parse_quantity`
returns 0, while the parseQuantity described by the spec (same cleansing
as `parse_price`, which removes the letter) would return 5 — so
`parse_quantity` does not apply the same cleansing as `parse_price`. -/
theorem parse_quantity_cleansing_cex :
    parse_quantity (some "5x") = 0 ∧ parse_quantity_of_spec (some "5x") = 5 := by
  exact ⟨by decide, by decide⟩

/-- Claim C10: the end-to-end scenario. The pricing row
`{Артикул: " A100 ", Модель: "METEOR B30 WIFI H 24", Цена: "45 000"}`
joined with the stock row `{Артикул: "A100", Остаток: "3"}` produces
exactly one record: article "A100", price 45000.0, quantity 3 (positive,
hence in stock), power "24", single-circuit, wifi yes, category meteor,
power tier medium. -/
theorem end_to_end_scenario :
    GoogleSheetsSync.sync_data c10price c10stock = Except.ok [c10record] ∧
    c10record.article = "A100" ∧ c10record.price = 45000 ∧
    c10record.quantity = 3 ∧ (0 : ℤ) < c10record.quantity ∧
    c10record.power = "24" ∧ c10record.contours = "Одноконтурный" ∧
    c10record.wifi = "Да" ∧ c10record.status = "В наличии" ∧
    c10record.category = "meteor" ∧ c10record.power_level = "medium" := by
  refine ⟨by decide, rfl, rfl, rfl, by decide, rfl, rfl, rfl, rfl, rfl, rfl⟩

/-- Claim C3, counterexample: the model name "X" matches no single-circuit
marker and no double-circuit marker (and has no wall-mount marker), yet
`extract_info` returns the SINGLE-circuit value, not the double-circuit
value the claim requires. -/
theorem contours_default_cex :
    contoursDoubleMarkers.all (fun t => !strContains (pyUpper (pyStr (some "X"))) t) = true ∧
    contoursSingleMarkers.all (fun t => !strContains (pyUpper (pyStr (some "X"))) t) = true ∧
    strContains (pyUpper (pyStr (some "X"))) "НАСТЕННЫЙ" = false ∧
    (extract_info (some "X")).2.1 = "Одноконтурный" := by
  exact ⟨by decide, by decide, by decide, by decide⟩

/-- Claim C3 (amended): when no single-circuit and no double-circuit
marker matches, the extractor returns double-circuit exactly when the
upper-cased name contains the wall-mount marker НАСТЕННЫЙ, and
single-circuit otherwise. -/
theorem contours_default_amended (m : Cell)
    (h1 : contoursDoubleMarkers.all (fun t => !strContains (pyUpper (pyStr m)) t) = true)
    (h2 : contoursSingleMarkers.all (fun t => !strContains (pyUpper (pyStr m)) t) = true) :
    (extract_info m).2.1 =
      if strContains (pyUpper (pyStr m)) "НАСТЕННЫЙ" then "Двухконтурный"
      else "Одноконтурный" := by
  have hd : contoursDoubleMarkers.any (fun t => strContains (pyUpper (pyStr m)) t) = false := by
    rw [List.any_eq_false]
    intro x hx
    have := List.all_eq_true.mp h1 x hx
    simpa using this
  have hs : contoursSingleMarkers.any (fun t => strContains (pyUpper (pyStr m)) t) = false := by
    rw [List.any_eq_false]
    intro x hx
    have := List.all_eq_true.mp h2 x hx
    simpa using this
  simp only [extract_info, extract_contours, hd, hs]
  simp

/-- Claim C3, witness: the amended rule evaluated at the concrete name
"X". -/
theorem contours_default_amended_witness :
    (extract_info (some "X")).2.1 =
      if strContains (pyUpper (pyStr (some "X"))) "НАСТЕННЫЙ" then "Двухконтурный"
      else "Одноконтурный" :=
  contours_default_amended (some "X") (by decide) (by decide)

/-- Claim C9: power extraction tries the ordered pattern cascade first
(first matching pattern wins and supplies the digits); when no pattern
matches, the first bare 2–3 digit number of the upper-cased name is used;
when there is none either, the sentinel "Не указана" is returned. -/
theorem power_extraction_cascade (m : Cell) :
    (∀ ds, power_patterns (pyUpper (pyStr m)).data = some ds →
      (extract_info m).1 = String.mk ds) ∧
    (power_patterns (pyUpper (pyStr m)).data = none →
      ∀ ds, findBareNumber none (pyUpper (pyStr m)).data = some ds →
        (extract_info m).1 = String.mk ds) ∧
    (power_patterns (pyUpper (pyStr m)).data = none →
      findBareNumber none (pyUpper (pyStr m)).data = none →
      (extract_info m).1 = powerUnknown) := by
  refine ⟨?_, ?_, ?_⟩
  · intro ds h
    simp only [extract_info, extract_power, h]
  · intro h ds h2
    simp only [extract_info, extract_power, h, h2]
  · intro h h2
    simp only [extract_info, extract_power, h, h2]

/-- Claim C9, witness: on "ZZZ 24" no cascade pattern matches and the
bare-number fallback finds "24". -/
theorem power_extraction_cascade_witness :
    (extract_info (some "ZZZ 24")).1 = String.mk ['2', '4'] :=
  (power_extraction_cascade (some "ZZZ 24")).2.1 (by decide) ['2', '4'] (by decide)

theorem find_updateFirst_decomp (ps : List Product) (it : Item) (p : Product)
    (h : findByArticle ps it.article = some p) :
    ∃ l1 l2, ps = l1 ++ p :: l2 ∧ updateFirst ps it = l1 ++ updateFromItem p it :: l2 := by
  induction ps with
  | nil => simp [findByArticle] at h
  | cons a t ih =>
    unfold findByArticle at h
    by_cases ha : (a.article == it.article) = true
    · rw [List.find?_cons, ha] at h
      have hap : a = p := by injection h
      subst hap
      refine ⟨[], t, rfl, ?_⟩
      simp [updateFirst, ha]
    · have ha' : (a.article == it.article) = false := by
        simpa using ha
      rw [List.find?_cons, ha'] at h
      obtain ⟨l1, l2, h1, h2⟩ := ih h
      refine ⟨a :: l1, l2, by rw [h1]; rfl, ?_⟩
      simp only [updateFirst, ha', if_false, Bool.false_eq_true]
      rw [h2]
      rfl

/-- Claim C1: when a sync record's article already exists as a persisted
product, the upsert of `DataService.sync_from_sheets` (and
`load_from_json`) overwrites the record-derived fields (name, price,
stock quantity, in-stock flag, power, contours, wifi, status, power
level, category, image) on that row in place, while the row's internal
id and accumulated view count are untouched and no row is added or
removed. -/
theorem upsert_preserves_identity (st : Store) (it : Item) (p : Product)
    (h : findByArticle st.products it.article = some p) :
    (∃ l1 l2, st.products = l1 ++ p :: l2 ∧
      (upsertOne st it).products = l1 ++ updateFromItem p it :: l2) ∧
    (upsertOne st it).nextId = st.nextId ∧
    (updateFromItem p it).id = p.id ∧
    (updateFromItem p it).views_count = p.views_count ∧
    (updateFromItem p it).name = it.model ∧
    (updateFromItem p it).price = it.price ∧
    (updateFromItem p it).stock_quantity = it.quantity ∧
    (updateFromItem p it).in_stock = decide (0 < it.quantity) ∧
    (updateFromItem p it).power = it.power ∧
    (updateFromItem p it).contours = it.contours ∧
    (updateFromItem p it).wifi = it.wifi ∧
    (updateFromItem p it).status = it.status ∧
    (updateFromItem p it).power_level = it.power_level ∧
    (updateFromItem p it).category = it.category ∧
    (updateFromItem p it).image_url = it.image := by
  have hpos : ((findByArticle st.products it.article).isSome : Prop) := by
    rw [h]; exact rfl
  have hu : (upsertOne st it).products = updateFirst st.products it := by
    unfold upsertOne
    rw [if_pos hpos]
  obtain ⟨l1, l2, h1, h2⟩ := find_updateFirst_decomp st.products it p h
  refine ⟨⟨l1, l2, h1, by rw [hu, h2]⟩, ?_, rfl, rfl, rfl, rfl, rfl, rfl, rfl, rfl,
    rfl, rfl, rfl, rfl, rfl⟩
  unfold upsertOne
  rw [if_pos hpos]

/-- Claim C1, witness: the persisted product with id 7 and 42 views that
receives a new price 20 for its article keeps id 7 and views 42 while the
price becomes the new value. -/
theorem upsert_preserves_identity_witness :
    demoProd.id = 7 ∧ demoProd.views_count = 42 ∧ demoItem.price = 20 ∧
    ((∃ l1 l2, demoStore.products = l1 ++ demoProd :: l2 ∧
      (upsertOne demoStore demoItem).products = l1 ++ updateFromItem demoProd demoItem :: l2) ∧
    (upsertOne demoStore demoItem).nextId = demoStore.nextId ∧
    (updateFromItem demoProd demoItem).id = demoProd.id ∧
    (updateFromItem demoProd demoItem).views_count = demoProd.views_count ∧
    (updateFromItem demoProd demoItem).name = demoItem.model ∧
    (updateFromItem demoProd demoItem).price = demoItem.price ∧
    (updateFromItem demoProd demoItem).stock_quantity = demoItem.quantity ∧
    (updateFromItem demoProd demoItem).in_stock = decide (0 < demoItem.quantity) ∧
    (updateFromItem demoProd demoItem).power = demoItem.power ∧
    (updateFromItem demoProd demoItem).contours = demoItem.contours ∧
    (updateFromItem demoProd demoItem).wifi = demoItem.wifi ∧
    (updateFromItem demoProd demoItem).status = demoItem.status ∧
    (updateFromItem demoProd demoItem).power_level = demoItem.power_level ∧
    (updateFromItem demoProd demoItem).category = demoItem.category ∧
    (updateFromItem demoProd demoItem).image_url = demoItem.image) :=
  ⟨by decide, by decide, by decide,
    upsert_preserves_identity demoStore demoItem demoProd (by decide)⟩

theorem updateFirst_keeps (ps : List Product) (it : Item) (p : Product) (hp : p ∈ ps) :
    ∃ q ∈ updateFirst ps it, q.article = p.article ∧ q.id = p.id ∧
      q.views_count = p.views_count := by
  induction ps with
  | nil => cases hp
  | cons a t ih =>
    by_cases ha : (a.article == it.article) = true
    · rcases List.mem_cons.mp hp with heq | hp'
      · refine ⟨updateFromItem a it, ?_, by rw [heq]; rfl, by rw [heq]; rfl, by rw [heq]; rfl⟩
        simp [updateFirst, ha]
      · refine ⟨p, ?_, rfl, rfl, rfl⟩
        simp [updateFirst, ha, List.mem_cons, hp']
    · have ha' : (a.article == it.article) = false := by simpa using ha
      rcases List.mem_cons.mp hp with heq | hp'
      · refine ⟨a, ?_, by rw [heq], by rw [heq], by rw [heq]⟩
        simp [updateFirst, ha']
      · obtain ⟨q, hq, e1, e2, e3⟩ := ih hp'
        refine ⟨q, ?_, e1, e2, e3⟩
        simp [updateFirst, ha', List.mem_cons, hq]

theorem upsertOne_keeps (st : Store) (it : Item) (p : Product) (hp : p ∈ st.products) :
    ∃ q ∈ (upsertOne st it).products, q.article = p.article ∧ q.id = p.id ∧
      q.views_count = p.views_count := by
  unfold upsertOne
  split
  · exact updateFirst_keeps st.products it p hp
  · exact ⟨p, List.mem_append_left _ hp, rfl, rfl, rfl⟩

theorem upsertItems_keeps (items : List Item) (st : Store) (p : Product)
    (hp : p ∈ st.products) :
    ∃ q ∈ (upsertItems st items).products, q.article = p.article ∧ q.id = p.id ∧
      q.views_count = p.views_count := by
  induction items generalizing st p with
  | nil => exact ⟨p, hp, rfl, rfl, rfl⟩
  | cons it rest ih =>
    obtain ⟨q, hq, e1, e2, e3⟩ := upsertOne_keeps st it p hp
    obtain ⟨r, hr, f1, f2, f3⟩ := ih (upsertOne st it) q hq
    refine ⟨r, ?_, by rw [f1, e1], by rw [f2, e2], by rw [f3, e3]⟩
    simpa [upsertItems] using hr

theorem load_from_json_keeps (st : Store) (jsonData : Option (List Item)) (p : Product)
    (hp : p ∈ st.products) :
    ∃ q ∈ (DataService.load_from_json st jsonData).2.products,
      q.article = p.article ∧ q.id = p.id ∧ q.views_count = p.views_count := by
  unfold DataService.load_from_json
  cases jsonData with
  | none => exact ⟨p, hp, rfl, rfl, rfl⟩
  | some items => exact upsertItems_keeps items st p hp

/-- Claim C2 (amended): the upsert path `DataService.sync_from_sheets`
never deletes a persisted product — every product present before the sync
has, afterwards, a product with the same article (and same id and view
count) in the store, whether or not its article occurs in the fetched
data or in the fallback file.  `DataLoader.load_from_sheets`, however,
wipes the whole table before re-inserting (see the counterexample). -/
theorem sync_never_deletes (st : Store) (fetch : Option (Df × Df))
    (jsonData : Option (List Item)) (p : Product) (hp : p ∈ st.products) :
    ∃ q ∈ (DataService.sync_from_sheets st fetch jsonData).2.products,
      q.article = p.article ∧ q.id = p.id ∧ q.views_count = p.views_count := by
  unfold DataService.sync_from_sheets
  cases hE : syncDataRun fetch with
  | ok items =>
    by_cases hi : items.isEmpty
    · simpa [hi] using ⟨p, hp, rfl, rfl, rfl⟩
    · simpa [hi] using upsertItems_keeps items st p hp
  | error e => exact load_from_json_keeps st jsonData p hp

/-- Claim C2, witness: the amended no-delete theorem applied to a store
holding the article "X" product, for a failed fetch with no fallback
file. -/
theorem sync_never_deletes_witness :
    ∃ q ∈ (DataService.sync_from_sheets cexStore none none).2.products,
      q.article = cexProdX.article ∧ q.id = cexProdX.id ∧
      q.views_count = cexProdX.views_count :=
  sync_never_deletes cexStore none none cexProdX (by decide)

/-- Claim C2, counterexample: `DataLoader.load_from_sheets` is a sync
invocation that DOES delete persisted products: starting from a store
holding a product with article "X", a successful run whose fetched data
no longer mentions "X" leaves a store in which no product with article
"X" exists. -/
theorem loader_sync_deletes_cex :
    cexProdX.article = "X" ∧ cexProdX ∈ cexStore.products ∧
    (DataLoader.load_from_sheets cexStore (some (c2price, c2stock))).2 = true ∧
    ((DataLoader.load_from_sheets cexStore (some (c2price, c2stock))).1.products.all
      (fun p => !(p.article == "X"))) = true := by
  exact ⟨by decide, by decide, by decide, by decide⟩

theorem mem_merge_rows_fst (price : List PriceRow) (stock : List StockRow)
    (pr : PriceRow × ℤ) (h : pr ∈ merge_rows price stock) : pr.1 ∈ price := by
  unfold merge_rows at h
  rw [List.mem_flatMap] at h
  obtain ⟨p, hp, hin⟩ := h
  by_cases he : (stock.filter (fun s => s.article == p.article)).isEmpty = true
  · rw [if_pos he] at hin
    have : pr = (p, 0) := by simpa using hin
    rw [this]
    exact hp
  · rw [if_neg he] at hin
    rw [List.mem_map] at hin
    obtain ⟨st, hst, heq⟩ := hin
    rw [← heq]
    exact hp

theorem mem_clean_price_article (pdf : Df) (aCol nCol pCol : String) (p : PriceRow)
    (h : p ∈ clean_price_rows pdf aCol nCol pCol) : ∃ s, p.article = pyStrip s := by
  unfold clean_price_rows at h
  rw [List.mem_filterMap] at h
  obtain ⟨r, hr, hmk⟩ := h
  cases hc : getCellNamed pdf.columns r aCol with
  | none =>
    rw [hc] at hmk
    exact absurd hmk (by simp)
  | some s =>
    rw [hc] at hmk
    refine ⟨s, ?_⟩
    have hinj := Option.some.inj hmk
    rw [← hinj]

/-- Claim C4 (amended): every record produced by one merge carries a
whitespace-trimmed article (rows whose article cell is missing are
dropped before the join); however articles may be empty or duplicated:
a whitespace-only article survives as the empty string and duplicate
price-side articles each produce their own record (no last-write-wins) —
see the counterexample. -/
theorem merge_articles_trimmed (pdf sdf : Df) (items : List Item) (it : Item)
    (h : GoogleSheetsSync.sync_data pdf sdf = Except.ok items) (hm : it ∈ items) :
    pyStrip it.article = it.article := by
  unfold GoogleSheetsSync.sync_data at h
  split at h
  · have hlist := Except.ok.inj h
    rw [← hlist] at hm
    rw [List.mem_map] at hm
    obtain ⟨pr, hpr, hbuild⟩ := hm
    have h1 := mem_merge_rows_fst _ _ _ hpr
    obtain ⟨s, hs⟩ := mem_clean_price_article _ _ _ _ _ h1
    rw [← hbuild]
    show pyStrip pr.1.article = pr.1.article
    rw [hs, pyStrip_idem]
  · exact Except.noConfusion h

/-- Claim C4, witness: the record built from the padded article " B1 "
carries the trimmed article "B1", which trimming leaves unchanged. -/
theorem merge_articles_trimmed_witness :
    pyStrip c4witem.article = c4witem.article :=
  merge_articles_trimmed c4wprice c4wstock [c4witem] c4witem (by decide) (by decide)

/-- Claim C4, counterexample: a whitespace-only article is NOT dropped
(it survives as the empty string "") and a duplicated price-side article
"A" yields two records rather than one last-write-wins record, so the
merged set is neither all-non-empty nor duplicate-free. -/
theorem merge_articles_cex :
    ((GoogleSheetsSync.sync_data c4price c4stock).toOption.map
      (fun items => items.map (fun it => it.article))) = some ["", "A", "A"] := by
  decide

/-- Claim C7 (amended): a pricing source with no header aliasable to the
price role makes the pipeline raise a generic schema error — the fixed
message "Не найдены все необходимые колонки в таблицах", which does not
name the unresolved role — and `DataService.sync_from_sheets` then runs
its JSON fallback: with no fallback file present the store is left
unmutated (with a file present the fallback may mutate the store; see
the counterexample). -/
theorem schema_error_amended (pdf sdf : Df) (st : Store)
    (h : find_column pdf.columns GoogleSheetsSync.priceAliases = none) :
    GoogleSheetsSync.sync_data pdf sdf =
      Except.error "Не найдены все необходимые колонки в таблицах" ∧
    DataService.sync_from_sheets st (some (pdf, sdf)) none =
      ("JSON file not found", st) := by
  have h1 : GoogleSheetsSync.sync_data pdf sdf =
      Except.error "Не найдены все необходимые колонки в таблицах" := by
    unfold GoogleSheetsSync.sync_data
    cases e1 : find_column pdf.columns GoogleSheetsSync.articleAliases <;>
      cases e2 : find_column pdf.columns GoogleSheetsSync.nameAliases <;>
        cases e4 : find_column sdf.columns GoogleSheetsSync.articleAliases <;>
          cases e5 : find_column sdf.columns GoogleSheetsSync.stockAliases <;>
            simp [h]
  refine ⟨h1, ?_⟩
  have h2 : syncDataRun (some (pdf, sdf)) =
      Except.error "Не найдены все необходимые колонки в таблицах" := by
    unfold syncDataRun
    exact h1
  unfold DataService.sync_from_sheets
  rw [h2]
  rfl

/-- Claim C7, witness: the amended statement at the concrete pricing
sheet whose headers are only Артикул and Модель, with no fallback file. -/
theorem schema_error_amended_witness :
    GoogleSheetsSync.sync_data c7price c7stock =
      Except.error "Не найдены все необходимые колонки в таблицах" ∧
    DataService.sync_from_sheets emptyStore (some (c7price, c7stock)) none =
      ("JSON file not found", emptyStore) :=
  schema_error_amended c7price c7stock emptyStore (by decide)

/-- Claim C7, counterexample: with the fallback JSON file present, the
same schema-resolution failure does NOT leave the store with zero
mutations — the fallback inserts a product into the initially empty
store (and the error message names no role). -/
theorem schema_error_mutation_cex :
    find_column c7price.columns GoogleSheetsSync.priceAliases = none ∧
    GoogleSheetsSync.sync_data c7price c7stock =
      Except.error "Не найдены все необходимые колонки в таблицах" ∧
    (DataService.sync_from_sheets emptyStore (some (c7price, c7stock))
      (some [c7item])).2 ≠ emptyStore ∧
    (DataService.sync_from_sheets emptyStore (some (c7price, c7stock))
      (some [c7item])).2.products.length = 1 := by
  exact ⟨by decide, by decide, by decide, by decide⟩

/-- Claim C8 (amended): the fallback to the local JSON file is attempted
on ANY sync failure — a failed fetch and a post-fetch failure (such as
schema resolution) alike: whenever the pipeline raises,
`sync_from_sheets` behaves exactly as `load_from_json`. -/
theorem fallback_on_any_failure (st : Store) (fetch : Option (Df × Df))
    (jsonData : Option (List Item)) (e : String)
    (h : syncDataRun fetch = Except.error e) :
    DataService.sync_from_sheets st fetch jsonData =
      DataService.load_from_json st jsonData := by
  unfold DataService.sync_from_sheets
  rw [h]

/-- Claim C8, witness: the amended statement for a successful fetch whose
pipeline fails on schema resolution, with a fallback file present. -/
theorem fallback_on_any_failure_witness :
    DataService.sync_from_sheets emptyStore (some (c7price, c7stock)) (some [c7item]) =
      DataService.load_from_json emptyStore (some [c7item]) :=
  fallback_on_any_failure emptyStore (some (c7price, c7stock)) (some [c7item])
    "Не найдены все необходимые колонки в таблицах" (by decide)

/-- Claim C8, counterexample: after a SUCCESSFUL fetch whose pipeline
fails on schema resolution, the sync does not surface the failure — it
falls back to the JSON file, reports the fallback's success message and
mutates the store with the fallback's items. -/
theorem fallback_after_fetch_cex :
    GoogleSheetsSync.sync_data c7price c7stock =
      Except.error "Не найдены все необходимые колонки в таблицах" ∧
    (DataService.sync_from_sheets emptyStore (some (c7price, c7stock))
      (some [c7item])).1 = "Successfully loaded 1 products" ∧
    (DataService.sync_from_sheets emptyStore (some (c7price, c7stock))
      (some [c7item])).2 = upsertItems emptyStore [c7item] := by
  exact ⟨by decide, by decide, by decide⟩
